import Mathlib

/-!
Verification of the per-entity MQTT value/expiry state machine of the
Prism wallbox integration (file src/custom_components/silla_prism/sensor.py,
class PrismSensor). The tracker state and its operations are embedded
shallowly: time is modelled as an integer number of seconds, the host
scheduler (async_call_later) as an explicit list of pending timers carried
in the state, and the transport unsubscribe callable as a call counter.
-/

namespace SillaPrism

/-- Strip leading and trailing whitespace, as Python int(str) does before
parsing. -/
def stripWs (cs : List Char) : List Char :=
  ((cs.dropWhile Char.isWhitespace).reverse.dropWhile Char.isWhitespace).reverse

/-- Decimal digits to a natural number. -/
def digitsToNat (cs : List Char) : Nat :=
  cs.foldl (fun a c => a * 10 + (c.toNat - 48)) 0

/-- The Python builtin int(s) applied to a payload string: optional
surrounding whitespace, an optional sign, then a nonempty run of decimal
digits. Returns none where Python raises ValueError. (Pythonic digit
grouping with underscores is not used by any payload considered here.) -/
def parsePyInt (s : String) : Option Int :=
  match stripWs s.toList with
  | [] => none
  | c :: rest =>
    let signAndDigits : Int × List Char :=
      if c = '-' then (-1, rest)
      else if c = '+' then (1, rest) else (1, c :: rest)
    if signAndDigits.2 ≠ [] ∧ signAndDigits.2.all Char.isDigit then
      some (signAndDigits.1 * (digitsToNat signAndDigits.2 : Int))
    else none

/-- Python list subscription l[i] with an Int index: nonnegative indices
are 0-based from the front, negative indices count from the back; none
where Python raises IndexError. -/
def pyIndex (l : List String) (i : Int) : Option String :=
  if 0 ≤ i then l[i.toNat]?
  else if 0 ≤ i + l.length then l[(i + l.length).toNat]? else none

/-- A pending expiry callback registered with the host scheduler
(async_call_later): its cancellation handle id and its fire time. -/
structure Timer where
  id : Nat
  fireAt : ℤ
deriving Repr, DecidableEq

/-- The observable state of one PrismSensor tracker together with the
host-scheduler and transport context it interacts with:
expire_after, options come from the entity description; attr_available,
attr_native_value, expiration_trigger are the mutable entity fields;
timers are the live callbacks registered with the scheduler; nextId is a
fresh-handle supply; now is the current time of the home event loop;
unsubscribe holds the stored subscription handle; unsubCalls counts
invocations of the transport unsubscribe callable; expireCount counts
completed runs of the expiry callback. -/
structure World where
  expire_after : Option ℤ
  options : Option (List String)
  attr_available : Bool
  attr_native_value : Option String
  expiration_trigger : Option Nat
  timers : List Timer
  nextId : Nat
  now : ℤ
  unsubscribe : Option Nat
  unsubCalls : Nat
  expireCount : Nat
deriving Repr, DecidableEq

/-- Modelled from the spec: the freshly constructed, unattached tracker.
The initial values of expiration_trigger, attr_available and
attr_native_value are set in the base class PrismBaseEntity (entity.py,
not under src); the spec says value is no value and no expiry is pending
until the first message. __init__ in sensor.py sets unsubscribe to none. -/
def initWorld (e : Option ℤ) (opts : Option (List String)) : World :=
  { expire_after := e, options := opts, attr_available := false,
    attr_native_value := none, expiration_trigger := none, timers := [],
    nextId := 0, now := 0, unsubscribe := none, unsubCalls := 0,
    expireCount := 0 }

/-- PrismSensor.async_added_to_hass: set attr_available to False and
subscribe to the topic, storing the unsubscribe handle. -/
def async_added_to_hass (w : World) (handle : Nat) : World :=
  { w with attr_available := false, unsubscribe := some handle }

/-- PrismSensor._value_is_expired: clear the expiration trigger, mark the
entity unavailable, write state. expireCount instruments the number of
completed firings so that once-only properties can be stated. -/
def value_is_expired (w : World) : World :=
  { w with expiration_trigger := none, attr_available := false,
           expireCount := w.expireCount + 1 }

/-- Cancelling a scheduled callback through its handle: the timer with
that id is removed from the scheduler. -/
def cancelTimer (w : World) (tid : Nat) : World :=
  { w with timers := w.timers.filter (fun tm => tm.id ≠ tid) }

/-- async_call_later(hass, d, _value_is_expired): register a fresh timer
due d from now and store its cancellation handle in expiration_trigger. -/
def scheduleLater (w : World) (d : ℤ) : World :=
  { w with timers := w.timers ++ [{ id := w.nextId, fireAt := w.now + d }],
           expiration_trigger := some w.nextId, nextId := w.nextId + 1 }

/-- The first half of PrismSensor._message_received: when expire_after is
set and positive, mark available, cancel the old trigger when present and
schedule a fresh expiry. -/
def updateExpiry (w : World) : World :=
  match w.expire_after with
  | some e =>
    if 0 < e then
      let wa := { w with attr_available := true }
      let wb :=
        match wa.expiration_trigger with
        | some tid => cancelTimer wa tid
        | none => wa
      scheduleLater wb e
    else w
  | none => w

/-- PrismSensor._message_received (the public message_received only
marshals this onto the home event loop). Returns the updated state and a
flag that is true exactly when an exception escapes: the try block guards
options[int(payload) - 1] with an except for IndexError only, so when
options is set and int(payload) raises ValueError, the exception
propagates after the expiry bookkeeping has already run. -/
def message_received (w : World) (payload : String) : World × Bool :=
  let w1 := updateExpiry w
  match w1.options with
  | some opts =>
    match parsePyInt payload with
    | some k => ({ w1 with attr_native_value := pyIndex opts (k - 1) }, false)
    | none => (w1, true)
  | none => ({ w1 with attr_native_value := some payload }, false)

/-- PrismSensor.async_will_remove_from_hass: when a trigger is pending,
cancel it, clear it and force attr_available to True; then, when an
unsubscribe handle is stored, call it (the handle itself is never
cleared). -/
def async_will_remove_from_hass (w : World) : World :=
  let w1 :=
    match w.expiration_trigger with
    | some tid =>
      { (cancelTimer w tid) with expiration_trigger := none,
                                 attr_available := true }
    | none => w
  match w1.unsubscribe with
  | some _ => { w1 with unsubCalls := w1.unsubCalls + 1 }
  | none => w1

/-- The home event loop advancing to time t: every scheduled timer that is
due fires its callback _value_is_expired (each firing clears the trigger
field, marks the entity unavailable and bumps expireCount); the rest stay
pending. -/
def tick (w : World) (t : ℤ) : World :=
  let due := w.timers.filter (fun tm => decide (tm.fireAt ≤ t))
  let rest := w.timers.filter (fun tm => decide (t < tm.fireAt))
  if due.isEmpty then { w with now := t }
  else
    { w with now := t, timers := rest, expiration_trigger := none,
             attr_available := false,
             expireCount := w.expireCount + due.length }

/-- Events the host can deliver to one tracker, all serialized on its home
event loop: a message on the subscribed topic, the loop reaching time t,
and removal from the host. -/
inductive Ev where
  | msg (payload : String)
  | advance (t : ℤ)
  | detach
deriving Repr

/-- One serialized event-loop step. A message whose decoding raises still
leaves the state the exception left behind; the loop itself survives. -/
def step (w : World) : Ev → World
  | Ev.msg p => (message_received w p).1
  | Ev.advance t => tick w t
  | Ev.detach => async_will_remove_from_hass w

/-- Run a list of events in order. -/
def run (w : World) : List Ev → World
  | [] => w
  | e :: es => run (step w e) es

/-- The attached tracker before any message: options absent. -/
def attachedWorld (e : ℤ) : World :=
  async_added_to_hass (initWorld (some e) none) 0

/-- The attached tracker of the current_state sensor: expire_after 600 and
the enumerated options list from SENSORS. -/
def enumWorld : World :=
  async_added_to_hass
    (initWorld (some 600) (some ["idle", "waiting", "charging", "pause"])) 0

/-- At most one expiry callback is registered with the scheduler, and any
registered callback is the one the stored trigger handle refers to. -/
def timerInv (w : World) : Prop :=
  w.timers.length ≤ 1 ∧ ∀ tm ∈ w.timers, w.expiration_trigger = some tm.id

lemma updateExpiry_of_none {w : World} (hw : w.expire_after = none) :
    updateExpiry w = w := by
  simp [updateExpiry, hw]

lemma updateExpiry_of_nonpos {w : World} {e : ℤ} (hw : w.expire_after = some e)
    (he : ¬ 0 < e) : updateExpiry w = w := by
  simp [updateExpiry, hw, he]

lemma updateExpiry_of_pos_none {w : World} {e : ℤ} (hw : w.expire_after = some e)
    (he : 0 < e) (ht : w.expiration_trigger = none) :
    updateExpiry w = scheduleLater { w with attr_available := true } e := by
  simp [updateExpiry, hw, he, ht]

lemma updateExpiry_of_pos_some {w : World} {e : ℤ} {tid : Nat}
    (hw : w.expire_after = some e) (he : 0 < e)
    (ht : w.expiration_trigger = some tid) :
    updateExpiry w
      = scheduleLater (cancelTimer { w with attr_available := true } tid) e := by
  simp [updateExpiry, hw, he, ht]

lemma updateExpiry_options (w : World) : (updateExpiry w).options = w.options := by
  rcases hw : w.expire_after with _ | e
  · rw [updateExpiry_of_none hw]
  · by_cases he : 0 < e
    · rcases ht : w.expiration_trigger with _ | tid
      · rw [updateExpiry_of_pos_none hw he ht]; simp [scheduleLater]
      · rw [updateExpiry_of_pos_some hw he ht]; simp [scheduleLater, cancelTimer]
    · rw [updateExpiry_of_nonpos hw he]

lemma message_received_parsed {w : World} {opts : List String} {payload : String}
    {k : Int} (ho : w.options = some opts) (hp : parsePyInt payload = some k) :
    message_received w payload
      = ({ updateExpiry w with attr_native_value := pyIndex opts (k - 1) },
         false) := by
  have hoo : (updateExpiry w).options = some opts := by
    rw [updateExpiry_options, ho]
  simp [message_received, hoo, hp]

lemma message_received_unparsed {w : World} {opts : List String}
    {payload : String} (ho : w.options = some opts)
    (hp : parsePyInt payload = none) :
    message_received w payload = (updateExpiry w, true) := by
  have hoo : (updateExpiry w).options = some opts := by
    rw [updateExpiry_options, ho]
  simp [message_received, hoo, hp]

lemma message_received_raw {w : World} {payload : String}
    (ho : w.options = none) :
    message_received w payload
      = ({ updateExpiry w with attr_native_value := some payload }, false) := by
  have hoo : (updateExpiry w).options = none := by
    rw [updateExpiry_options, ho]
  simp [message_received, hoo]

lemma pyIndex_front {l : List String} {i : Int} (h : 0 ≤ i) :
    pyIndex l i = l[i.toNat]? := by
  simp [pyIndex, h]

lemma pyIndex_back {l : List String} {i : Int} (h : i < 0)
    (h2 : 0 ≤ i + l.length) : pyIndex l i = l[(i + l.length).toNat]? := by
  simp [pyIndex, not_le.2 h, h2]

lemma pyIndex_oob {l : List String} {i : Int} (h : i + l.length < 0) :
    pyIndex l i = none := by
  have h1 : ¬ (0 : Int) ≤ i := by omega
  simp [pyIndex, h1, not_le.2 h]

/-- Claim C1 (amended): for a tracker whose options list is set with
length n, a payload that parses as an integer k with 1 <= k <= n decodes
to options[k - 1] (an actual element); a parsed k with k > n or k < 1 - n
decodes to no value via the caught IndexError; a parsed k with
1 - n <= k <= 0 selects by Python negative indexing instead of degrading;
and a payload that does not parse as an integer raises ValueError out of
the handler instead of yielding no value. -/
theorem C1_enum_decoding (w : World) (opts : List String) (payload : String)
    (ho : w.options = some opts) :
    (∀ k : Int, parsePyInt payload = some k →
      (message_received w payload).2 = false ∧
      (1 ≤ k → k ≤ opts.length →
        (message_received w payload).1.attr_native_value = opts[(k - 1).toNat]? ∧
        opts[(k - 1).toNat]?.isSome) ∧
      (1 - opts.length ≤ k → k ≤ 0 →
        (message_received w payload).1.attr_native_value
          = opts[(k - 1 + opts.length).toNat]?) ∧
      ((k < 1 - opts.length ∨ (opts.length : Int) < k) →
        (message_received w payload).1.attr_native_value = none)) ∧
    (parsePyInt payload = none → (message_received w payload).2 = true) := by
  constructor
  · intro k hp
    rw [message_received_parsed ho hp]
    refine ⟨rfl, ?_, ?_, ?_⟩
    · intro h1 h2
      have hi : (0 : Int) ≤ k - 1 := by omega
      have hlt : (k - 1).toNat < opts.length := by omega
      rw [pyIndex_front hi]
      have hlt2 : k.toNat - 1 < opts.length := by omega
      exact ⟨rfl, by simp [hlt2]⟩
    · intro h1 h2
      have hi : k - 1 < 0 := by omega
      have h2i : (0 : Int) ≤ k - 1 + opts.length := by omega
      rw [pyIndex_back hi h2i]
    · rintro (h | h)
      · have hi : k - 1 + (opts.length : Int) < 0 := by omega
        rw [pyIndex_oob hi]
      · have hi : (0 : Int) ≤ k - 1 := by omega
        have hge : opts.length ≤ k.toNat - 1 := by omega
        rw [pyIndex_front hi]
        simp [List.getElem?_eq_none hge]
  · intro hp
    rw [message_received_unparsed ho hp]

/-- Witness for C1: the current_state sensor with options
[idle, waiting, charging, pause]: payload 3 decodes to charging, payload
5 is out of range and decodes to no value, payload abc raises. -/
theorem C1_enum_decoding_witness :
    (message_received enumWorld "3").1.attr_native_value = some "charging" ∧
    (message_received enumWorld "5").1.attr_native_value = none ∧
    (message_received enumWorld "abc").2 = true := by
  have h3 := C1_enum_decoding enumWorld ["idle", "waiting", "charging", "pause"]
    "3" rfl
  have h5 := C1_enum_decoding enumWorld ["idle", "waiting", "charging", "pause"]
    "5" rfl
  have habc := C1_enum_decoding enumWorld ["idle", "waiting", "charging", "pause"]
    "abc" rfl
  refine ⟨?_, ?_, habc.2 rfl⟩
  · have := ((h3.1 3 rfl).2.1 (by norm_num) (by norm_num)).1
    simpa using this
  · have := (h5.1 5 rfl).2.2.2 (Or.inr (by norm_num))
    simpa using this

/-- Counterexample for C1 as stated: with the current_state options the
payload 0 parses in range of neither [1, 4] nor a failure, yet the value
becomes pause (the last element, by Python negative indexing) instead of
no value. -/
theorem C1_counterexample :
    (message_received enumWorld "0").1.attr_native_value = some "pause" ∧
    (message_received enumWorld "0").1.attr_native_value ≠ none := by
  have h : (message_received enumWorld "0").1.attr_native_value = some "pause" :=
    rfl
  exact ⟨h, by rw [h]; simp⟩

/-- Claim C2 (amended): the message handler lets no exception escape when
options is unset or when the payload parses as an integer (out-of-range
indexes are caught and degrade the value); but when options is set and
the payload does not parse as an integer, int() raises ValueError, the
try block catches only IndexError, and the exception escapes. -/
theorem C2_exception_escape (w : World) (payload : String) :
    ((w.options = none ∨ ∃ k, parsePyInt payload = some k) →
      (message_received w payload).2 = false) ∧
    (∀ opts, w.options = some opts → parsePyInt payload = none →
      (message_received w payload).2 = true) := by
  constructor
  · rintro (ho | ⟨k, hp⟩)
    · rw [message_received_raw ho]
    · rcases hoo : w.options with _ | opts
      · rw [message_received_raw hoo]
      · rw [message_received_parsed hoo hp]
  · intro opts ho hp
    rw [message_received_unparsed ho hp]

/-- Witness for C2: an integer payload is handled without exception, and
the non-numeric payload abc escapes as an exception. -/
theorem C2_exception_escape_witness :
    (message_received enumWorld "3").2 = false ∧
    (message_received enumWorld "abc").2 = true := by
  exact ⟨(C2_exception_escape enumWorld "3").1 (Or.inr ⟨3, rfl⟩),
    (C2_exception_escape enumWorld "abc").2
      ["idle", "waiting", "charging", "pause"] rfl rfl⟩

/-- Counterexample for C2 as stated: the non-numeric payload abc raises
ValueError out of the handler of the current_state sensor. -/
theorem C2_counterexample : (message_received enumWorld "abc").2 = true := rfl

/-- Claim C9: with options of length n set, a payload parsing to an
integer k with 1 - n <= k <= 0 makes the handler index the list with the
negative Python index k - 1, selecting options[n + k - 1] (a real
element) rather than degrading to no value, and no exception escapes. -/
theorem C9_negative_indexing (w : World) (opts : List String)
    (payload : String) (k : Int) (ho : w.options = some opts)
    (hp : parsePyInt payload = some k) (h1 : 1 - (opts.length : Int) ≤ k)
    (h2 : k ≤ 0) :
    (message_received w payload).1.attr_native_value
      = opts[(k - 1 + opts.length).toNat]? ∧
    opts[(k - 1 + opts.length).toNat]?.isSome ∧
    (message_received w payload).2 = false := by
  rw [message_received_parsed ho hp]
  have hi : k - 1 < 0 := by omega
  have h2i : (0 : Int) ≤ k - 1 + opts.length := by omega
  have hlt : (k - 1 + (opts.length : Int)).toNat < opts.length := by omega
  refine ⟨?_, by simp [hlt], rfl⟩
  simpa using pyIndex_back hi h2i

/-- Witness for C9: payload 0 on the current_state sensor selects the
last element pause. -/
theorem C9_negative_indexing_witness :
    parsePyInt "0" = some 0 ∧
    (message_received enumWorld "0").1.attr_native_value = some "pause" := by
  have h := C9_negative_indexing enumWorld
    ["idle", "waiting", "charging", "pause"] "0" 0 rfl rfl (by norm_num)
    (by norm_num)
  exact ⟨rfl, by simpa using h.1⟩

lemma tick_of_no_timers {w : World} {t : ℤ} (h : w.timers = []) :
    tick w t = { w with now := t } := by
  simp [tick, h]

lemma tick_of_not_due {w : World} {tm : Timer} {t : ℤ} (hT : w.timers = [tm])
    (h : t < tm.fireAt) : tick w t = { w with now := t } := by
  have hd : decide (tm.fireAt ≤ t) = false := decide_eq_false (not_le.2 h)
  simp [tick, hT, hd]

lemma tick_of_due {w : World} {tm : Timer} {t : ℤ} (hT : w.timers = [tm])
    (h : tm.fireAt ≤ t) :
    tick w t = { w with now := t, timers := [], expiration_trigger := none,
                        attr_available := false,
                        expireCount := w.expireCount + 1 } := by
  have hd : decide (tm.fireAt ≤ t) = true := decide_eq_true h
  have hd2 : decide (t < tm.fireAt) = false := decide_eq_false (not_lt.2 h)
  simp [tick, hT, hd, hd2]

lemma timers_nil_of_no_trigger {w : World} (hinv : timerInv w)
    (ht : w.expiration_trigger = none) : w.timers = [] := by
  cases hT : w.timers with
  | nil => rfl
  | cons a l =>
    exfalso
    have ha := hinv.2 a (by rw [hT]; exact List.mem_cons_self a l)
    rw [ht] at ha
    exact Option.noConfusion ha

lemma cancel_clears_timers {w : World} {tid : Nat} (hinv : timerInv w)
    (ht : w.expiration_trigger = some tid) :
    w.timers.filter (fun tm => tm.id ≠ tid) = [] := by
  rw [List.filter_eq_nil_iff]
  intro a ha
  have haid := hinv.2 a ha
  rw [ht] at haid
  have : tid = a.id := Option.some.inj haid
  simp [this]

/-- Claim C3 (amended): detach always cancels and clears any pending
expiry trigger (so under the one-timer invariant no timer survives it),
but it forces attr_available to True only when a trigger was pending at
the time of the call; when no trigger is pending (AwaitingFirstMessage or
Expired), availability is left unchanged. -/
theorem C3_detach_effect (w : World) :
    (async_will_remove_from_hass w).expiration_trigger = none ∧
    (∀ tid, w.expiration_trigger = some tid →
      (async_will_remove_from_hass w).attr_available = true) ∧
    (w.expiration_trigger = none →
      (async_will_remove_from_hass w).attr_available = w.attr_available ∧
      (async_will_remove_from_hass w).timers = w.timers) ∧
    (timerInv w → (async_will_remove_from_hass w).timers = []) := by
  refine ⟨?_, ?_, ?_, ?_⟩
  · rcases ht : w.expiration_trigger with _ | tid <;>
      rcases hu : w.unsubscribe with _ | h <;>
      simp [async_will_remove_from_hass, cancelTimer, ht, hu]
  · intro tid ht
    rcases hu : w.unsubscribe with _ | h <;>
      simp [async_will_remove_from_hass, cancelTimer, ht, hu]
  · intro ht
    rcases hu : w.unsubscribe with _ | h <;>
      simp [async_will_remove_from_hass, cancelTimer, ht, hu]
  · intro hinv
    rcases ht : w.expiration_trigger with _ | tid
    · have hT := timers_nil_of_no_trigger hinv ht
      rcases hu : w.unsubscribe with _ | h <;>
        simp [async_will_remove_from_hass, cancelTimer, ht, hu, hT]
    · have hT := cancel_clears_timers hinv ht
      rcases hu : w.unsubscribe with _ | h <;>
        simp [async_will_remove_from_hass, cancelTimer, ht, hu, hT] <;>
        (intro a ha; have haid := hinv.2 a ha; rw [ht] at haid;
         exact (Option.some.inj haid).symm)

/-- Witness for C3: detaching a Live tracker (message just received,
trigger pending) clears the trigger, leaves no timer and forces
availability to True. -/
theorem C3_detach_effect_witness :
    (async_will_remove_from_hass
        (message_received (attachedWorld 600) "42").1).expiration_trigger
      = none ∧
    (async_will_remove_from_hass
        (message_received (attachedWorld 600) "42").1).attr_available = true ∧
    (async_will_remove_from_hass
        (message_received (attachedWorld 600) "42").1).timers = [] := by
  have h := C3_detach_effect (message_received (attachedWorld 600) "42").1
  exact ⟨h.1, h.2.1 0 rfl, h.2.2.2 (by constructor <;> decide)⟩

/-- Counterexample for C3 as stated: detaching in AwaitingFirstMessage
(attached, no message yet) and detaching in Expired (the expiry fired)
both leave attr_available False, because the assignment to True sits
inside the branch that runs only when a trigger is still pending. -/
theorem C3_counterexample :
    (async_will_remove_from_hass (attachedWorld 600)).attr_available = false ∧
    (async_will_remove_from_hass
        (tick (message_received (attachedWorld 600) "42").1 600)).attr_available
      = false := by
  exact ⟨rfl, rfl⟩

/-- Claim C8 (amended): a second detach leaves every tracker field
(availability, value, trigger, timers, clock, stored handle) exactly as
the first detach left it, and is a strict no-op when no subscription
handle was ever stored; but when a handle is stored, the second detach
invokes the transport unsubscribe callable again, because the handle is
never cleared after use. -/
theorem C8_detach_idempotence (w : World) :
    (async_will_remove_from_hass (async_will_remove_from_hass w)).attr_available
      = (async_will_remove_from_hass w).attr_available ∧
    (async_will_remove_from_hass
        (async_will_remove_from_hass w)).attr_native_value
      = (async_will_remove_from_hass w).attr_native_value ∧
    (async_will_remove_from_hass
        (async_will_remove_from_hass w)).expiration_trigger
      = (async_will_remove_from_hass w).expiration_trigger ∧
    (async_will_remove_from_hass (async_will_remove_from_hass w)).timers
      = (async_will_remove_from_hass w).timers ∧
    (async_will_remove_from_hass (async_will_remove_from_hass w)).unsubscribe
      = (async_will_remove_from_hass w).unsubscribe ∧
    (w.unsubscribe = none →
      async_will_remove_from_hass (async_will_remove_from_hass w)
        = async_will_remove_from_hass w) ∧
    (w.unsubscribe ≠ none →
      (async_will_remove_from_hass (async_will_remove_from_hass w)).unsubCalls
        = (async_will_remove_from_hass w).unsubCalls + 1) := by
  rcases ht : w.expiration_trigger with _ | tid <;>
    rcases hu : w.unsubscribe with _ | h <;>
    simp [async_will_remove_from_hass, cancelTimer, ht, hu]

/-- Witness for C8: the attached tracker holds a subscription handle, so
the second detach bumps the transport unsubscribe call count. -/
theorem C8_detach_idempotence_witness :
    (attachedWorld 600).unsubscribe ≠ none ∧
    (async_will_remove_from_hass
        (async_will_remove_from_hass (attachedWorld 600))).unsubCalls
      = (async_will_remove_from_hass (attachedWorld 600)).unsubCalls + 1 := by
  exact ⟨by decide,
    (C8_detach_idempotence (attachedWorld 600)).2.2.2.2.2.2 (by decide)⟩

/-- Counterexample for C8 as stated: detach on the already-detached
attached tracker is not a no-op: it calls the transport unsubscribe a
second time, so the resulting states differ in the number of unsubscribe
invocations. -/
theorem C8_counterexample :
    (async_will_remove_from_hass
        (async_will_remove_from_hass (attachedWorld 600))).unsubCalls = 2 ∧
    (async_will_remove_from_hass (attachedWorld 600)).unsubCalls = 1 ∧
    async_will_remove_from_hass (async_will_remove_from_hass (attachedWorld 600))
      ≠ async_will_remove_from_hass (attachedWorld 600) := by
  exact ⟨rfl, rfl, by decide⟩

/-- Claim C7 (amended): value is the last decoded reading and starts as
no value before any message; but expiry does not reset it: the expiry
callback only clears the trigger and availability, so after it fires the
value remains the last reading. Neither the event loop advancing time nor
detach ever changes the value. -/
theorem C7_value_retention (w : World) (t : ℤ) (ea : Option ℤ)
    (opts : Option (List String)) (p : String) :
    (tick w t).attr_native_value = w.attr_native_value ∧
    (async_will_remove_from_hass w).attr_native_value
      = w.attr_native_value ∧
    (initWorld ea opts).attr_native_value = none ∧
    (w.options = none →
      (message_received w p).1.attr_native_value = some p) := by
  refine ⟨?_, ?_, rfl, ?_⟩
  · simp only [tick]
    split <;> rfl
  · rcases ht : w.expiration_trigger with _ | tid <;>
      rcases hu : w.unsubscribe with _ | h <;>
      simp [async_will_remove_from_hass, cancelTimer, ht, hu]
  · intro ho
    rw [message_received_raw ho]

/-- Witness for C7: on a Live tracker holding the reading 42, advancing
time and detaching keep the value, the fresh tracker has no value, and a
new raw message overwrites the value. -/
theorem C7_value_retention_witness :
    (tick (message_received (attachedWorld 600) "42").1 700).attr_native_value
      = (message_received (attachedWorld 600) "42").1.attr_native_value ∧
    (async_will_remove_from_hass
        (message_received (attachedWorld 600) "42").1).attr_native_value
      = (message_received (attachedWorld 600) "42").1.attr_native_value ∧
    (initWorld (some 600) none).attr_native_value = none ∧
    (message_received (message_received (attachedWorld 600) "42").1
        "43").1.attr_native_value = some "43" := by
  have h := C7_value_retention (message_received (attachedWorld 600) "42").1
    700 (some 600) none "43"
  exact ⟨h.1, h.2.1, h.2.2.1, h.2.2.2 rfl⟩

/-- Counterexample for C7 as stated: after the expiry fires (availability
drops, expireCount becomes 1) the value is still the last reading 42, not
no value. -/
theorem C7_counterexample :
    (tick (message_received (attachedWorld 600) "42").1 600).expireCount
      = 1 ∧
    (tick (message_received (attachedWorld 600) "42").1 600).attr_available
      = false ∧
    (tick (message_received (attachedWorld 600) "42").1 600).attr_native_value
      = some "42" ∧
    (tick (message_received (attachedWorld 600) "42").1 600).attr_native_value
      ≠ none := by
  exact ⟨rfl, rfl, rfl, by decide⟩

/-- A tracker with no scheduling activity at all: no timer registered, no
trigger handle, unavailable, and the expiry callback never completed. -/
def quiescent (w : World) : Prop :=
  w.timers = [] ∧ w.expiration_trigger = none ∧ w.attr_available = false ∧
  w.expireCount = 0

lemma timers_shape {w : World} (hinv : timerInv w) {tid : Nat}
    (ht : w.expiration_trigger = some tid) :
    w.timers = [] ∨ ∃ fa, w.timers = [⟨tid, fa⟩] := by
  rcases hT : w.timers with _ | ⟨⟨aid, afa⟩, _ | ⟨b, rest⟩⟩
  · left; rfl
  · right
    have ha := hinv.2 ⟨aid, afa⟩ (by rw [hT]; exact List.mem_cons_self _ _)
    rw [ht] at ha
    have h2 : tid = aid := Option.some.inj ha
    exact ⟨afa, by rw [h2]⟩
  · exfalso
    have hlen := hinv.1
    rw [hT] at hlen
    simp at hlen

lemma updateExpiry_expire_after (w : World) :
    (updateExpiry w).expire_after = w.expire_after := by
  rcases hw : w.expire_after with _ | e
  · rw [updateExpiry_of_none hw]; exact hw
  · by_cases he : 0 < e
    · rcases ht : w.expiration_trigger with _ | tid
      · rw [updateExpiry_of_pos_none hw he ht]; simp [scheduleLater, hw]
      · rw [updateExpiry_of_pos_some hw he ht]
        simp [scheduleLater, cancelTimer, hw]
    · rw [updateExpiry_of_nonpos hw he]; exact hw

lemma message_received_expire_after (w : World) (p : String) :
    ((message_received w p).1).expire_after = w.expire_after := by
  rcases ho : w.options with _ | opts
  · rw [message_received_raw ho]; exact updateExpiry_expire_after w
  · rcases hp : parsePyInt p with _ | k
    · rw [message_received_unparsed ho hp]; exact updateExpiry_expire_after w
    · rw [message_received_parsed ho hp]; exact updateExpiry_expire_after w

lemma step_expire_after (w : World) (ev : Ev) :
    (step w ev).expire_after = w.expire_after := by
  cases ev with
  | msg p => exact message_received_expire_after w p
  | advance t => simp only [step, tick]; split <;> rfl
  | detach =>
    show (async_will_remove_from_hass w).expire_after = w.expire_after
    rcases ht : w.expiration_trigger with _ | tid <;>
      rcases hu : w.unsubscribe with _ | h <;>
      simp [async_will_remove_from_hass, cancelTimer, ht, hu]

lemma updateExpiry_eq_self (w : World)
    (h : ∀ e, w.expire_after = some e → e ≤ 0) : updateExpiry w = w := by
  rcases hw : w.expire_after with _ | e
  · exact updateExpiry_of_none hw
  · exact updateExpiry_of_nonpos hw (by have := h e hw; omega)

lemma quiescent_step (w : World) (ev : Ev)
    (h : ∀ e, w.expire_after = some e → e ≤ 0) (hq : quiescent w) :
    quiescent (step w ev) := by
  obtain ⟨hT, ht, ha, hc⟩ := hq
  cases ev with
  | msg p =>
    show quiescent (message_received w p).1
    have hid := updateExpiry_eq_self w h
    rcases ho : w.options with _ | opts
    · rw [message_received_raw ho, hid]
      exact ⟨hT, ht, ha, hc⟩
    · rcases hp : parsePyInt p with _ | k
      · rw [message_received_unparsed ho hp, hid]
        exact ⟨hT, ht, ha, hc⟩
      · rw [message_received_parsed ho hp, hid]
        exact ⟨hT, ht, ha, hc⟩
  | advance t =>
    show quiescent (tick w t)
    rw [tick_of_no_timers hT]
    exact ⟨hT, ht, ha, hc⟩
  | detach =>
    show quiescent (async_will_remove_from_hass w)
    rcases hu : w.unsubscribe with _ | hh <;>
      simp [quiescent, async_will_remove_from_hass, ht, hu, hT, ha, hc]

lemma quiescent_run (evs : List Ev) : ∀ w : World,
    (∀ e, w.expire_after = some e → e ≤ 0) → quiescent w →
    quiescent (run w evs) := by
  induction evs with
  | nil => intro w _ hq; exact hq
  | cons ev es ih =>
    intro w h hq
    have h2 : ∀ e, (step w ev).expire_after = some e → e ≤ 0 := by
      intro e he; rw [step_expire_after] at he; exact h e he
    exact ih (step w ev) h2 (quiescent_step w ev h hq)

/-- Claim C5 (amended): when expire_after is unset or nonpositive, no
expiry callback is ever scheduled along any event sequence (the trigger
handle stays none, no timer is registered, the expiry callback never
runs); but message receipt does not set availability either: the
attr_available = True assignment sits inside the expire_after > 0 branch,
so the tracker stays unavailable from attach onward no matter how many
messages arrive. -/
theorem C5_nonpos_expire (ea : Option ℤ) (opts : Option (List String))
    (evs : List Ev) (h : ∀ e, ea = some e → e ≤ 0) :
    quiescent (run (async_added_to_hass (initWorld ea opts) 0) evs) := by
  apply quiescent_run
  · intro e he; exact h e he
  · exact ⟨rfl, rfl, rfl, rfl⟩

/-- Witness for C5: expire_after zero, a message, a long silence and a
detach still leave the tracker with no timer, no trigger, no completed
expiry and availability False. -/
theorem C5_nonpos_expire_witness :
    quiescent (run (async_added_to_hass (initWorld (some 0) none) 0)
      [Ev.msg "5", Ev.advance 100000, Ev.detach]) := by
  exact C5_nonpos_expire (some 0) none [Ev.msg "5", Ev.advance 100000,
    Ev.detach] (by intro e he; injection he with h2; omega)

/-- Counterexample for C5 as stated: with expire_after = 0, receiving a
message leaves attr_available False; the tracker does not default to
available on message receipt. -/
theorem C5_counterexample :
    (message_received (async_added_to_hass (initWorld (some 0) none) 0)
        "5").1.attr_available = false ∧
    (message_received (async_added_to_hass (initWorld (some 0) none) 0)
        "5").1.attr_available ≠ true := by
  exact ⟨rfl, by decide⟩

lemma timerInv_updateExpiry (w : World) (hinv : timerInv w) :
    timerInv (updateExpiry w) := by
  rcases hw : w.expire_after with _ | e
  · rw [updateExpiry_of_none hw]; exact hinv
  · by_cases he : 0 < e
    · rcases ht : w.expiration_trigger with _ | tid
      · rw [updateExpiry_of_pos_none hw he ht]
        have hT := timers_nil_of_no_trigger hinv ht
        refine ⟨by simp [scheduleLater, hT], ?_⟩
        intro tm htm
        simp [scheduleLater, hT] at htm
        simp [scheduleLater, htm]
      · rw [updateExpiry_of_pos_some hw he ht]
        rcases timers_shape hinv ht with hT | ⟨fa, hT⟩ <;>
          (refine ⟨by simp [scheduleLater, cancelTimer, hT], ?_⟩
           intro tm htm
           simp [scheduleLater, cancelTimer, hT] at htm
           simp [scheduleLater, cancelTimer, htm])
    · rw [updateExpiry_of_nonpos hw he]; exact hinv

lemma timerInv_message (w : World) (p : String) (hinv : timerInv w) :
    timerInv (message_received w p).1 := by
  have h := timerInv_updateExpiry w hinv
  rcases ho : w.options with _ | opts
  · rw [message_received_raw ho]; exact h
  · rcases hp : parsePyInt p with _ | k
    · rw [message_received_unparsed ho hp]; exact h
    · rw [message_received_parsed ho hp]; exact h

lemma timerInv_tick (w : World) (t : ℤ) (hinv : timerInv w) :
    timerInv (tick w t) := by
  rcases hT : w.timers with _ | ⟨a, _ | ⟨b, rest⟩⟩
  · rw [tick_of_no_timers hT]; exact hinv
  · by_cases hd : a.fireAt ≤ t
    · rw [tick_of_due hT hd]
      exact ⟨by simp, by simp⟩
    · rw [tick_of_not_due hT (not_le.1 hd)]; exact hinv
  · exfalso
    have := hinv.1
    rw [hT] at this
    simp at this

lemma timerInv_detach (w : World) (hinv : timerInv w) :
    timerInv (async_will_remove_from_hass w) := by
  rcases ht : w.expiration_trigger with _ | tid
  · rcases hu : w.unsubscribe with _ | h <;>
      simpa [timerInv, async_will_remove_from_hass, ht, hu] using hinv
  · rcases timers_shape hinv ht with hT | ⟨fa, hT⟩ <;>
      rcases hu : w.unsubscribe with _ | h <;>
      simp [timerInv, async_will_remove_from_hass, cancelTimer, ht, hu, hT]

lemma timerInv_step (w : World) (ev : Ev) (hinv : timerInv w) :
    timerInv (step w ev) := by
  cases ev with
  | msg p => exact timerInv_message w p hinv
  | advance t => exact timerInv_tick w t hinv
  | detach => exact timerInv_detach w hinv

lemma timerInv_run (evs : List Ev) : ∀ w : World, timerInv w →
    timerInv (run w evs) := by
  induction evs with
  | nil => intro w hinv; exact hinv
  | cons ev es ih => intro w hinv; exact ih (step w ev) (timerInv_step w ev hinv)

/-- Claim C6: along any sequence of messages, time advances and detaches
from the attached tracker, at most one expiry timer is registered with
the scheduler at any instant, and any registered timer is the one the
stored trigger handle refers to (rearm cancels before it reschedules, so
timers never accumulate). -/
theorem C6_at_most_one_timer (ea : Option ℤ) (opts : Option (List String))
    (evs : List Ev) :
    timerInv (run (async_added_to_hass (initWorld ea opts) 0) evs) ∧
    (run (async_added_to_hass (initWorld ea opts) 0) evs).timers.length
      ≤ 1 := by
  have h := timerInv_run evs (async_added_to_hass (initWorld ea opts) 0)
    ⟨by simp [async_added_to_hass, initWorld], by
      intro tm htm
      simp [async_added_to_hass, initWorld] at htm⟩
  exact ⟨h, h.1⟩

/-- The attached tracker (no options) right after one message: Live. -/
def liveWorld (e : ℤ) (p : String) : World :=
  (message_received (attachedWorld e) p).1

/-- The Live tracker after the event loop reaches time t: Expired when t
is at least the scheduled fire time. -/
def expiredWorld (e t : ℤ) (p : String) : World :=
  tick (liveWorld e p) t

/-- The Live tracker after a second message arrives at time s: the timer
is rearmed. -/
def rearmedWorld (e s : ℤ) (p1 p2 : String) : World :=
  (message_received (tick (liveWorld e p1) s) p2).1

lemma updateExpiry_avail_pos {w : World} {e : ℤ} (hw : w.expire_after = some e)
    (he : 0 < e) : (updateExpiry w).attr_available = true := by
  rcases ht : w.expiration_trigger with _ | tid
  · rw [updateExpiry_of_pos_none hw he ht]; simp [scheduleLater]
  · rw [updateExpiry_of_pos_some hw he ht]; simp [scheduleLater, cancelTimer]

lemma message_received_avail (w : World) (p : String) :
    ((message_received w p).1).attr_available
      = (updateExpiry w).attr_available := by
  rcases ho : w.options with _ | opts
  · rw [message_received_raw ho]
  · rcases hp : parsePyInt p with _ | k
    · rw [message_received_unparsed ho hp]
    · rw [message_received_parsed ho hp]

/-- Claim C4: for expire_after e > 0 on the attached tracker: one message
makes it available and schedules an expiry; the loop reaching any time
before the fire time changes nothing; reaching the fire time runs the
expiry exactly once (available False, no trigger, no timer), later time
advances keep it unavailable with no second firing, and a next message
restores availability. Rearm: a second message at spacing s < e cancels
the old timer and schedules s + e, so no expiry fires before s + e but
the loop reaching s + e fires it. -/
theorem C4_expiry_and_rearm (e s t1 t2 t3 t4 : ℤ) (p1 p2 : String)
    (he : 0 < e) (h1 : t1 < e) (h2 : e ≤ t2) (_hs0 : 0 < s) (hs : s < e)
    (h4 : t4 < s + e) :
    ((liveWorld e p1).attr_available = true ∧
      (liveWorld e p1).expireCount = 0 ∧
      (liveWorld e p1).timers = [⟨0, e⟩] ∧
      (liveWorld e p1).expiration_trigger = some 0) ∧
    ((tick (liveWorld e p1) t1).attr_available = true ∧
      (tick (liveWorld e p1) t1).expireCount = 0) ∧
    ((expiredWorld e t2 p1).attr_available = false ∧
      (expiredWorld e t2 p1).expireCount = 1 ∧
      (expiredWorld e t2 p1).expiration_trigger = none ∧
      (expiredWorld e t2 p1).timers = []) ∧
    ((tick (expiredWorld e t2 p1) t3).attr_available = false ∧
      (tick (expiredWorld e t2 p1) t3).expireCount = 1) ∧
    ((message_received (expiredWorld e t2 p1) p2).1.attr_available = true) ∧
    ((rearmedWorld e s p1 p2).attr_available = true ∧
      (rearmedWorld e s p1 p2).expireCount = 0 ∧
      (rearmedWorld e s p1 p2).timers = [⟨1, s + e⟩]) ∧
    ((tick (rearmedWorld e s p1 p2) t4).attr_available = true ∧
      (tick (rearmedWorld e s p1 p2) t4).expireCount = 0) ∧
    ((tick (rearmedWorld e s p1 p2) (s + e)).attr_available = false ∧
      (tick (rearmedWorld e s p1 p2) (s + e)).expireCount = 1) := by
  have hm1 : liveWorld e p1
      = { expire_after := some e, options := none, attr_available := true,
          attr_native_value := some p1, expiration_trigger := some 0,
          timers := [⟨0, e⟩], nextId := 1, now := 0, unsubscribe := some 0,
          unsubCalls := 0, expireCount := 0 } := by
    unfold liveWorld
    rw [message_received_raw (show (attachedWorld e).options = none from rfl)]
    rw [updateExpiry_of_pos_none
      (show (attachedWorld e).expire_after = some e from rfl) he
      (show (attachedWorld e).expiration_trigger = none from rfl)]
    simp [scheduleLater, attachedWorld, async_added_to_hass, initWorld]
  have hx : expiredWorld e t2 p1
      = { expire_after := some e, options := none, attr_available := false,
          attr_native_value := some p1, expiration_trigger := none,
          timers := [], nextId := 1, now := t2, unsubscribe := some 0,
          unsubCalls := 0, expireCount := 1 } := by
    unfold expiredWorld
    rw [tick_of_due (by rw [hm1]) h2, hm1]
  have hm2 : rearmedWorld e s p1 p2
      = { expire_after := some e, options := none, attr_available := true,
          attr_native_value := some p2, expiration_trigger := some 1,
          timers := [⟨1, s + e⟩], nextId := 2, now := s,
          unsubscribe := some 0, unsubCalls := 0, expireCount := 0 } := by
    unfold rearmedWorld
    rw [tick_of_not_due (by rw [hm1]) hs]
    rw [message_received_raw
      (show ({liveWorld e p1 with now := s} : World).options = none by
        rw [hm1])]
    rw [updateExpiry_of_pos_some
      (show ({liveWorld e p1 with now := s} : World).expire_after = some e by
        rw [hm1]) he
      (show ({liveWorld e p1 with now := s} : World).expiration_trigger
          = some 0 by rw [hm1])]
    rw [hm1]
    simp [scheduleLater, cancelTimer]
  refine ⟨by simp [hm1], ?_, by simp [hx], ?_, ?_, ?_, ?_, ?_⟩
  · rw [tick_of_not_due (by rw [hm1]) h1]
    simp [hm1]
  · rw [tick_of_no_timers (by rw [hx])]
    simp [hx]
  · rw [message_received_avail]
    exact updateExpiry_avail_pos (by rw [hx]) he
  · simp [hm2]
  · rw [tick_of_not_due (by rw [hm2]) h4]
    simp [hm2]
  · rw [tick_of_due (by rw [hm2]) (le_refl (s + e))]
    simp [hm2]

/-- Witness for C4: expire_after 600, messages spaced 300 = 600 / 2
apart, silences of 300 and of the full 600. -/
theorem C4_expiry_and_rearm_witness :
    ((liveWorld 600 "7").attr_available = true ∧
      (liveWorld 600 "7").expireCount = 0 ∧
      (liveWorld 600 "7").timers = [⟨0, 600⟩] ∧
      (liveWorld 600 "7").expiration_trigger = some 0) ∧
    ((tick (liveWorld 600 "7") 300).attr_available = true ∧
      (tick (liveWorld 600 "7") 300).expireCount = 0) ∧
    ((expiredWorld 600 600 "7").attr_available = false ∧
      (expiredWorld 600 600 "7").expireCount = 1 ∧
      (expiredWorld 600 600 "7").expiration_trigger = none ∧
      (expiredWorld 600 600 "7").timers = []) ∧
    ((tick (expiredWorld 600 600 "7") 4000).attr_available = false ∧
      (tick (expiredWorld 600 600 "7") 4000).expireCount = 1) ∧
    ((message_received (expiredWorld 600 600 "7") "8").1.attr_available
      = true) ∧
    ((rearmedWorld 600 300 "7" "8").attr_available = true ∧
      (rearmedWorld 600 300 "7" "8").expireCount = 0 ∧
      (rearmedWorld 600 300 "7" "8").timers = [⟨1, 300 + 600⟩]) ∧
    ((tick (rearmedWorld 600 300 "7" "8") 700).attr_available = true ∧
      (tick (rearmedWorld 600 300 "7" "8") 700).expireCount = 0) ∧
    ((tick (rearmedWorld 600 300 "7" "8") (300 + 600)).attr_available = false ∧
      (tick (rearmedWorld 600 300 "7" "8") (300 + 600)).expireCount = 1) := by
  exact C4_expiry_and_rearm 600 300 300 600 4000 700 "7" "8" (by decide)
    (by decide) (by decide) (by decide) (by decide) (by decide)

end SillaPrism
